import Mathlib

/-!
Verification of the rehab_gamified gesture / motion analytics engine.

Shallow embedding of the gesture-interpretation core of the repository:

* `rehab_gamification/hand_tracking/hand_tracker.py` — geometry primitives
  (`calculate_distance`, `calculate_angle`) and the pinch-gesture detector
  (`get_pinch_midpoint`, `get_pinch_gesture`);
* `hand_tracking/hand_tracker.py` — the second, divergent copy of
  `calculate_angle` (no reflection step), reflected by its caller in
  `games/angle_master.py`;
* `rehab_gamification/games/base_game.py` — the stateful motion tracker
  (`_track_hand_data`), the pinch accumulator (`track_pinch_event`), and the
  derived statistics (`calculate_movement_smoothness`,
  `_calculate_pinch_consistency`, `get_enhanced_session_data`);
* `rehab_gamification/calibration.py` — `CalibrationScreen._calculate_calibration`.

Machine floats of the Python source are idealised as real numbers `ℝ`
(the purely rational arithmetic of the calibration step as `ℚ`); landmark
pixel coordinates are integers `ℤ`, matching the `int(lm.x * w)`
construction in the source.  Python's `round(x, k)` (round-half-to-even at
`k` decimal places) is modelled by `round_dp`.
-/

namespace RehabGamified

open Classical

/-- A landmark entry `[id, cx, cy]` as produced by
`HandTracker.get_landmark_positions` (integer pixel coordinates). -/
abbrev Landmark := ℤ × ℤ × ℤ

/-! ## Geometry primitives -/

/-- Python `math.atan2 y x`, idealised over the reals: the argument of the complex
number `x + y*i`, lying in `(-π, π]`. -/
noncomputable def atan2 (y x : ℝ) : ℝ := Complex.arg (x + y * Complex.I)

/-- Python `math.degrees`: radians to degrees. -/
noncomputable def degrees (x : ℝ) : ℝ := x * (180 / Real.pi)

/-- The raw angle value
`math.degrees(math.atan2(y3 - y2, x3 - x2) - math.atan2(y1 - y2, x1 - x2))`
shared by both copies of `calculate_angle` in the repository. -/
noncomputable def raw_angle_deg (x1 y1 x2 y2 x3 y3 : ℝ) : ℝ :=
  degrees (atan2 (y3 - y2) (x3 - x2) - atan2 (y1 - y2) (x1 - x2))

/-- The normalisation step `if angle < 0: angle += 360`. -/
noncomputable def normalize_angle (a : ℝ) : ℝ := if a < 0 then a + 360 else a

/-- The reflection step `if angle > 180: angle = 360 - angle`. -/
noncomputable def reflect_angle (a : ℝ) : ℝ := if 180 < a then 360 - a else a

/-- Source `HandTracker.calculate_angle` from
`rehab_gamification/hand_tracking/hand_tracker.py` (lines 79–100): raw atan2
difference in degrees, normalised by adding 360 if negative, then reflected
to `360 - angle` if above 180.  Points are `[id, x, y]` landmark entries. -/
noncomputable def calculate_angle (p1 p2 p3 : Landmark) : ℝ :=
  reflect_angle (normalize_angle
    (raw_angle_deg (p1.2.1 : ℝ) (p1.2.2 : ℝ) (p2.2.1 : ℝ) (p2.2.2 : ℝ)
      (p3.2.1 : ℝ) (p3.2.2 : ℝ)))

/-- Source `HandTracker.calculate_angle` from `hand_tracking/hand_tracker.py`
(lines 38–43): the second copy, over `(x, y)` tuples, which only adds 360 to
a negative result and performs NO reflection step. -/
noncomputable def calculate_angle_v2 (p1 p2 p3 : ℤ × ℤ) : ℝ :=
  normalize_angle
    (raw_angle_deg (p1.1 : ℝ) (p1.2 : ℝ) (p2.1 : ℝ) (p2.2 : ℝ)
      (p3.1 : ℝ) (p3.2 : ℝ))

/-- The displayed angle in `games/angle_master.py` (lines 37–40): the caller
applies the reflection `360 - angle if angle > 180` on top of
`calculate_angle_v2`. -/
noncomputable def angle_master_current_angle (p1 p2 p3 : ℤ × ℤ) : ℝ :=
  reflect_angle (calculate_angle_v2 p1 p2 p3)

/-! ## Pinch gesture detector (`hand_tracker.py`, rehab_gamification copy) -/

/-- Source `HandTracker.calculate_distance`: Euclidean distance
`math.hypot(x2 - x1, y2 - y1)` between two `[id, x, y]` landmark entries. -/
noncomputable def calculate_distance (p1 p2 : Landmark) : ℝ :=
  Real.sqrt (((p2.2.1 - p1.2.1 : ℤ) : ℝ) ^ 2 + ((p2.2.2 - p1.2.2 : ℤ) : ℝ) ^ 2)

/-- Source `HandTracker.get_pinch_midpoint` (lines 113–125): midpoint of thumb tip
(id 4) and index tip (id 8), via Python floor division `//`; the origin
`(0, 0)` is the documented placeholder when fewer than 9 landmarks exist. -/
def get_pinch_midpoint (lm : List Landmark) : ℤ × ℤ :=
  if 9 ≤ lm.length then
    ((((lm.getD 4 (0, 0, 0)).2.1 + (lm.getD 8 (0, 0, 0)).2.1) : ℤ).fdiv 2,
     (((lm.getD 4 (0, 0, 0)).2.2 + (lm.getD 8 (0, 0, 0)).2.2) : ℤ).fdiv 2)
  else (0, 0)

/-- The thumb-tip / index-tip distance used by the pinch detector. -/
noncomputable def pinch_distance (lm : List Landmark) : ℝ :=
  calculate_distance (lm.getD 4 (0, 0, 0)) (lm.getD 8 (0, 0, 0))

/-- Source `HandTracker.get_pinch_gesture` (lines 127–145): returns
`(is_pinching, pinch_position)`; `is_pinching` starts `False` and is set
only when at least 9 landmarks exist and the thumb–index distance is below
the threshold. -/
noncomputable def get_pinch_gesture (lm : List Landmark) (threshold : ℝ) :
    Bool × (ℤ × ℤ) :=
  (if 9 ≤ lm.length then
     (if pinch_distance lm < threshold then true else false)
   else false,
   get_pinch_midpoint lm)

/-! ## Python `round(x, k)` (round-half-to-even), idealised on `ℝ` -/

/-- Round to the nearest integer, ties to the even integer (the rounding
used by Python's builtin `round`). -/
noncomputable def roundHalfEven (x : ℝ) : ℤ :=
  if Int.fract x < 1 / 2 then ⌊x⌋
  else if 1 / 2 < Int.fract x then ⌊x⌋ + 1
  else if Even ⌊x⌋ then ⌊x⌋ else ⌊x⌋ + 1

/-- Python `round(x, k)`: round to the closest multiple of `10⁻ᵏ`, ties to
the even multiple. -/
noncomputable def round_dp (k : ℕ) (x : ℝ) : ℝ :=
  (roundHalfEven (x * 10 ^ k) : ℝ) / 10 ^ k

/-! ## Pinch accumulator (`BaseGame.track_pinch_event`, base_game.py 139–183) -/

/-- The pinch-related mutable state of a `BaseGame` instance: the
`pinch_data` dictionary, the internal markers `current_pinch_start` /
`last_pinch_time`, and `hand_movement_data["successful_interactions"]`
(the one movement counter that `track_pinch_event` also mutates). -/
structure PinchState where
  total_pinch_attempts : ℕ
  successful_pinches : ℕ
  failed_pinches : ℕ
  pinch_distances : List ℝ
  pinch_durations : List ℝ
  pinch_positions : List (ℤ × ℤ)
  pinch_timing : List ℝ
  successful_interactions : ℕ
  current_pinch_start : Option ℝ
  last_pinch_time : Option ℝ

/-- The state set up by `BaseGame.__init__`. -/
def initial_pinch_state : PinchState :=
  { total_pinch_attempts := 0
    successful_pinches := 0
    failed_pinches := 0
    pinch_distances := []
    pinch_durations := []
    pinch_positions := []
    pinch_timing := []
    successful_interactions := 0
    current_pinch_start := none
    last_pinch_time := none }

/-- Source `BaseGame.track_pinch_event(lm_list, was_successful, ...)` at time `t`:
early return unless at least 9 landmarks; on a rising edge
(`is_pinching` with no open pinch) a new attempt is recorded (attempt
count, inter-pinch gap, distance, position, success/failure counters); on a
falling edge (no `is_pinching` with an open pinch) the held duration is
recorded.  The pinch boolean comes from `get_pinch_gesture` at the default
threshold 40, exactly as in the source. -/
noncomputable def track_pinch_event (s : PinchState) (lm : List Landmark)
    (was_successful : Bool) (t : ℝ) : PinchState :=
  if lm.length < 9 then s
  else if (get_pinch_gesture lm 40).1 then
    match s.current_pinch_start with
    | some _ => s
    | none =>
      { s with
        current_pinch_start := some t
        total_pinch_attempts := s.total_pinch_attempts + 1
        pinch_timing :=
          match s.last_pinch_time with
          | some lp => s.pinch_timing ++ [t - lp]
          | none => s.pinch_timing
        pinch_distances := s.pinch_distances ++ [pinch_distance lm]
        pinch_positions := s.pinch_positions ++ [(get_pinch_gesture lm 40).2]
        successful_pinches :=
          if was_successful then s.successful_pinches + 1
          else s.successful_pinches
        failed_pinches :=
          if was_successful then s.failed_pinches else s.failed_pinches + 1
        successful_interactions :=
          if was_successful then s.successful_interactions + 1
          else s.successful_interactions }
  else
    match s.current_pinch_start with
    | some st =>
      { s with
        pinch_durations := s.pinch_durations ++ [t - st]
        last_pinch_time := some t
        current_pinch_start := none }
    | none => s

/-- A whole session of per-frame `track_pinch_event` calls, each update
being `(lm_list, was_successful, timestamp)`, starting from the state built
by `BaseGame.__init__`. -/
noncomputable def run_pinch_events
    (updates : List (List Landmark × Bool × ℝ)) : PinchState :=
  updates.foldl (fun s u => track_pinch_event s u.1 u.2.1 u.2.2)
    initial_pinch_state

/-! ## Derived pinch statistics (`BaseGame.get_enhanced_session_data`
and `BaseGame._calculate_pinch_consistency`) -/

/-- The local variable `pinch_success_rate` of
`get_enhanced_session_data` (base_game.py 230–238): `successes / attempts *
100`, left at 0 when no attempt was made. -/
noncomputable def pinch_success_rate (s : PinchState) : ℝ :=
  if 0 < s.total_pinch_attempts then
    ((s.successful_pinches : ℝ) / (s.total_pinch_attempts : ℝ)) * 100
  else 0

/-- Source `BaseGame._calculate_pinch_consistency` (base_game.py 282–300):
`max(0, 100 - stddev/mean*100)` over the pinch-distance history, rounded to
two decimals; 0 for fewer than 2 samples or a zero mean. -/
noncomputable def calculate_pinch_consistency (distances : List ℝ) : ℝ :=
  if distances.length < 2 then 0
  else if distances.sum / distances.length = 0 then 0
  else
    round_dp 2 (max 0 (100 -
      Real.sqrt
          ((distances.map fun d =>
              (d - distances.sum / distances.length) ^ 2).sum /
            distances.length) /
        (distances.sum / distances.length) * 100))

/-- The `pinch_analytics` block of the dictionary returned by
`BaseGame.get_enhanced_session_data` (base_game.py 270–279). -/
structure PinchAnalytics where
  total_pinch_attempts : ℕ
  successful_pinches : ℕ
  failed_pinches : ℕ
  pinch_success_rate : ℝ
  avg_pinch_distance : ℝ
  avg_pinch_duration : ℝ
  avg_time_between_pinches : ℝ
  pinch_consistency : ℝ

/-- Source `BaseGame.get_enhanced_session_data`, restricted to its
`pinch_analytics` block: a pure read of the accumulated state (the Python
method mutates nothing). -/
noncomputable def get_pinch_analytics (s : PinchState) : PinchAnalytics :=
  { total_pinch_attempts := s.total_pinch_attempts
    successful_pinches := s.successful_pinches
    failed_pinches := s.failed_pinches
    pinch_success_rate := round_dp 2 (pinch_success_rate s)
    avg_pinch_distance :=
      round_dp 2 (if s.pinch_distances ≠ [] then
        s.pinch_distances.sum / s.pinch_distances.length else 0)
    avg_pinch_duration :=
      round_dp 3 (if s.pinch_durations ≠ [] then
        s.pinch_durations.sum / s.pinch_durations.length else 0)
    avg_time_between_pinches :=
      round_dp 2 (if s.pinch_timing ≠ [] then
        s.pinch_timing.sum / s.pinch_timing.length else 0)
    pinch_consistency := calculate_pinch_consistency s.pinch_distances }

/-! ## Movement smoothness (`BaseGame.calculate_movement_smoothness`,
base_game.py 185–209) -/

/-- The list comprehension
`[abs(speeds[i+1] - speeds[i]) for i in range(len(speeds)-1)]`. -/
noncomputable def speed_changes (speeds : List ℝ) : List ℝ :=
  (speeds.zip speeds.tail).map fun p => |p.2 - p.1|

/-- Source `BaseGame.calculate_movement_smoothness`: 0 for fewer than 3 speed
samples; otherwise `max(0, 100 - avg_speed_change/avg_speed*100)` when the
mean speed is positive (0 otherwise), rounded to two decimals. -/
noncomputable def calculate_movement_smoothness (speeds : List ℝ) : ℝ :=
  if speeds.length < 3 then 0
  else if speed_changes speeds = [] then 0
  else
    round_dp 2
      (if 0 < speeds.sum / speeds.length then
        max 0 (100 -
          (speed_changes speeds).sum / (speed_changes speeds).length /
            (speeds.sum / speeds.length) * 100)
      else 0)

/-! ## Motion tracker (`BaseGame._track_hand_data`, base_game.py 89–137) -/

/-- The `hand_movement_data` state mutated by `_track_hand_data`, together
with the internal markers `last_hand_position`, `last_frame_time` and
`was_hand_detected_last_frame`.  (`successful_interactions` lives in
`PinchState` because only `track_pinch_event` mutates it.) -/
structure MotionState where
  total_frames : ℕ
  hand_detected_frames : ℕ
  total_movements : ℕ
  hand_positions : List (ℤ × ℤ × ℝ)
  movement_distances : List ℝ
  movement_speeds : List ℝ
  tracking_lost_count : ℕ
  last_hand_position : Option (ℤ × ℤ)
  last_frame_time : ℝ
  was_hand_detected_last_frame : Bool

/-- The `(x, y)` pixel position of landmark 8 (index-finger tip), the
reference point `_track_hand_data` tracks. -/
def position8 (lm : List Landmark) : ℤ × ℤ :=
  ((lm.getD 8 (0, 0, 0)).2.1, (lm.getD 8 (0, 0, 0)).2.2)

/-- Python `math.sqrt((cx - lx)**2 + (cy - ly)**2)`: displacement between the last
and the current reference position. -/
noncomputable def displacement (p q : ℤ × ℤ) : ℝ :=
  Real.sqrt (((q.1 - p.1 : ℤ) : ℝ) ^ 2 + ((q.2 - p.2 : ℤ) : ℝ) ^ 2)

/-- Source `BaseGame._track_hand_data` at frame time `t`.  A hand counts as
detected when the landmark list has more than 8 entries; a speed/distance
sample is recorded only when a previous position exists, the elapsed time
is positive and the displacement exceeds 1 px; the tracking-loss counter is
incremented only on the detected → not-detected falling edge. -/
noncomputable def track_hand_data (s : MotionState) (lm : List Landmark)
    (t : ℝ) : MotionState :=
  if 8 < lm.length then
    let detected :=
      { s with
        total_frames := s.total_frames + 1
        hand_detected_frames := s.hand_detected_frames + 1 }
    let moved :=
      match s.last_hand_position with
      | some p =>
        if 0 < t - s.last_frame_time ∧ 1 < displacement p (position8 lm) then
          { detected with
            movement_distances :=
              detected.movement_distances ++ [displacement p (position8 lm)]
            movement_speeds :=
              detected.movement_speeds ++
                [displacement p (position8 lm) / (t - s.last_frame_time)]
            total_movements := detected.total_movements + 1 }
        else detected
      | none => detected
    let hp := moved.hand_positions ++ [((position8 lm).1, (position8 lm).2, t)]
    { moved with
      hand_positions := if 1000 < hp.length then hp.drop (hp.length - 1000) else hp
      last_hand_position := some (position8 lm)
      was_hand_detected_last_frame := true
      last_frame_time := t }
  else
    if s.was_hand_detected_last_frame then
      { s with
        total_frames := s.total_frames + 1
        tracking_lost_count := s.tracking_lost_count + 1
        was_hand_detected_last_frame := false
        last_frame_time := t }
    else
      { s with
        total_frames := s.total_frames + 1
        last_frame_time := t }

/-! ## Calibration (`CalibrationScreen._calculate_calibration`,
calibration.py 85–115).  This step is pure rational arithmetic (sort,
percentile index, `* 1.2`, `min … 60`), embedded over `ℚ`. -/

/-- Source `CalibrationScreen._calculate_calibration` as a function of the
collected `pinch_distances` and `hand_positions` samples, returning
`(pinch_threshold, sensitivity)`.  With no distance samples it returns the
defaults `(40, 1.0)`; otherwise the threshold is the sample at index
`int(n * 0.7)` of the ascending sort, scaled by 1.2 and capped at 60. -/
def calculate_calibration (pinch_distances : List ℚ)
    (hand_positions : List (ℤ × ℤ)) : ℚ × ℚ :=
  if pinch_distances = [] then (40, 1)
  else
    let sorted_distances := pinch_distances.insertionSort (· ≤ ·)
    let idx := (⌊(sorted_distances.length : ℚ) * (7 / 10)⌋).toNat
    let pt0 :=
      if idx < sorted_distances.length then sorted_distances.getD idx 40
      else 40
    let pt := min (pt0 * (12 / 10)) 60
    let sens :=
      if hand_positions ≠ [] then
        let xs := hand_positions.map Prod.fst
        let ys := hand_positions.map Prod.snd
        let x_range := xs.foldl max (xs.headD 0) - xs.foldl min (xs.headD 0)
        let y_range := ys.foldl max (ys.headD 0) - ys.foldl min (ys.headD 0)
        if (((x_range + y_range : ℤ) : ℚ) / 2) < 100 then (3 : ℚ) / 2 else 1
      else 1
    (pt, sens)

/-- A 9-entry all-zero landmark snapshot (thumb tip and index tip both at
the origin), used as a concrete pinching frame in witnesses. -/
def lm_zero : List Landmark :=
  [(0, 0, 0), (1, 0, 0), (2, 0, 0), (3, 0, 0), (4, 0, 0),
   (5, 0, 0), (6, 0, 0), (7, 0, 0), (8, 0, 0)]

/-- A 9-entry snapshot whose index-finger tip (id 8) sits at pixel
`(3, 4)`, used as a concrete moving frame in witnesses. -/
def lm_idx34 : List Landmark :=
  [(0, 0, 0), (1, 0, 0), (2, 0, 0), (3, 0, 0), (4, 0, 0),
   (5, 0, 0), (6, 0, 0), (7, 0, 0), (8, 3, 4)]

/-- A motion state that has already seen one frame with the reference
point at the origin (used as a concrete witness input). -/
def motion_state_prev : MotionState :=
  { total_frames := 1
    hand_detected_frames := 1
    total_movements := 0
    hand_positions := [(0, 0, 0)]
    movement_distances := []
    movement_speeds := []
    tracking_lost_count := 0
    last_hand_position := some (0, 0)
    last_frame_time := 0
    was_hand_detected_last_frame := true }

/-- The motion state set up by `BaseGame.__init__`, with the session start
taken as time 0. -/
def initial_motion_state : MotionState :=
  { total_frames := 0
    hand_detected_frames := 0
    total_movements := 0
    hand_positions := []
    movement_distances := []
    movement_speeds := []
    tracking_lost_count := 0
    last_hand_position := none
    last_frame_time := 0
    was_hand_detected_last_frame := false }

/-- The counting invariant maintained by `track_pinch_event`: every attempt
owns exactly one distance sample and one success-or-failure count, and one
duration sample unless the pinch is still open. -/
def pinch_counts_invariant (s : PinchState) : Prop :=
  s.pinch_durations.length +
      (if s.current_pinch_start.isSome then 1 else 0) =
    s.total_pinch_attempts ∧
  s.successful_pinches + s.failed_pinches = s.total_pinch_attempts ∧
  s.pinch_distances.length = s.total_pinch_attempts

/-! # Helper lemmas -/

lemma atan2_bounds (y x : ℝ) :
    -Real.pi < atan2 y x ∧ atan2 y x ≤ Real.pi :=
  ⟨Complex.neg_pi_lt_arg _, Complex.arg_le_pi _⟩

lemma raw_angle_deg_bounds (x1 y1 x2 y2 x3 y3 : ℝ) :
    -360 < raw_angle_deg x1 y1 x2 y2 x3 y3 ∧
      raw_angle_deg x1 y1 x2 y2 x3 y3 < 360 := by
  obtain ⟨ha1, ha2⟩ := atan2_bounds (y3 - y2) (x3 - x2)
  obtain ⟨hb1, hb2⟩ := atan2_bounds (y1 - y2) (x1 - x2)
  have hπ : (0 : ℝ) < Real.pi := Real.pi_pos
  have hc : (0 : ℝ) < 180 / Real.pi := by positivity
  have key : 2 * Real.pi * (180 / Real.pi) = 360 := by
    field_simp
    ring
  unfold raw_angle_deg degrees
  set a := atan2 (y3 - y2) (x3 - x2)
  set b := atan2 (y1 - y2) (x1 - x2)
  constructor
  · have h1 : 0 < a - b + 2 * Real.pi := by linarith
    nlinarith [mul_pos h1 hc]
  · have h1 : 0 < 2 * Real.pi - (a - b) := by linarith
    nlinarith [mul_pos h1 hc]

lemma normalize_angle_range {a : ℝ} (h1 : -360 < a) (h2 : a < 360) :
    0 ≤ normalize_angle a ∧ normalize_angle a < 360 := by
  unfold normalize_angle
  split_ifs <;> constructor <;> linarith

lemma reflect_angle_range {a : ℝ} (h1 : 0 ≤ a) (h2 : a < 360) :
    0 ≤ reflect_angle a ∧ reflect_angle a ≤ 180 := by
  unfold reflect_angle
  split_ifs <;> constructor <;> linarith

lemma roundHalfEven_eq_floor {x : ℝ} {n : ℤ} (h1 : (n : ℝ) ≤ x)
    (h2 : x < n + 1 / 2) : roundHalfEven x = n := by
  have hfl : ⌊x⌋ = n := Int.floor_eq_iff.mpr ⟨h1, by linarith⟩
  have hfr : Int.fract x < 1 / 2 := by
    unfold Int.fract
    rw [hfl]
    linarith
  unfold roundHalfEven
  rw [if_pos hfr, hfl]

lemma roundHalfEven_eq_ceil {x : ℝ} {n : ℤ} (h1 : (n : ℝ) + 1 / 2 < x)
    (h2 : x < n + 1) : roundHalfEven x = n + 1 := by
  have hfl : ⌊x⌋ = n := Int.floor_eq_iff.mpr ⟨by linarith, by linarith⟩
  have hfr : 1 / 2 < Int.fract x := by
    unfold Int.fract
    rw [hfl]
    linarith
  have hfr1 : ¬ Int.fract x < 1 / 2 := by linarith
  unfold roundHalfEven
  rw [if_neg hfr1, if_pos hfr, hfl]

lemma round_dp_eq_of_floor {k : ℕ} {x : ℝ} {n : ℤ} (h1 : (n : ℝ) ≤ x * 10 ^ k)
    (h2 : x * 10 ^ k < n + 1 / 2) : round_dp k x = (n : ℝ) / 10 ^ k := by
  unfold round_dp
  rw [roundHalfEven_eq_floor h1 h2]

lemma round_dp_eq_of_ceil {k : ℕ} {x : ℝ} {n : ℤ}
    (h1 : (n : ℝ) + 1 / 2 < x * 10 ^ k) (h2 : x * 10 ^ k < n + 1) :
    round_dp k x = ((n : ℝ) + 1) / 10 ^ k := by
  unfold round_dp
  rw [roundHalfEven_eq_ceil h1 h2]
  push_cast
  ring

lemma calibration_pt (samples : List ℚ) (hp : List (ℤ × ℤ))
    (hne : samples ≠ []) :
    (calculate_calibration samples hp).1 =
      min ((samples.insertionSort (· ≤ ·)).getD
          (⌊(samples.length : ℚ) * (7 / 10)⌋).toNat 40 * (12 / 10)) 60 := by
  have hlen : 0 < samples.length := List.length_pos.mpr hne
  have hsortlen : (samples.insertionSort (· ≤ ·)).length = samples.length :=
    List.length_insertionSort _ _
  have h1 : ⌊(samples.length : ℚ) * (7 / 10)⌋ < (samples.length : ℤ) := by
    rw [Int.floor_lt]
    have hq : (1 : ℚ) ≤ (samples.length : ℚ) := by exact_mod_cast hlen
    push_cast
    linarith
  have hidx : (⌊(samples.length : ℚ) * (7 / 10)⌋).toNat < samples.length := by
    omega
  unfold calculate_calibration
  rw [if_neg hne]
  simp only [hsortlen]
  rw [if_pos hidx]

lemma round_dp_zero (k : ℕ) : round_dp k (0 : ℝ) = 0 := by
  have h := @round_dp_eq_of_floor k 0 0 (by norm_num) (by norm_num)
  simpa using h

lemma speed_changes_length (l : List ℝ) :
    (speed_changes l).length = l.length - 1 := by
  unfold speed_changes
  rw [List.length_map, List.length_zip, List.length_tail]
  omega

lemma speed_changes_replicate_sum (n : ℕ) (c : ℝ) :
    (speed_changes (List.replicate n c)).sum = 0 := by
  apply List.sum_eq_zero
  intro x hx
  unfold speed_changes at hx
  obtain ⟨p, hp, hpx⟩ := List.mem_map.mp hx
  obtain ⟨a, b⟩ := p
  obtain ⟨ha, hb⟩ := List.of_mem_zip hp
  have ha' : a = c := List.eq_of_mem_replicate ha
  have hb' : b = c :=
    List.eq_of_mem_replicate (List.mem_of_mem_tail hb)
  rw [← hpx, ha', hb']
  simp

lemma pinch_step_invariant (s : PinchState) (lm : List Landmark) (b : Bool)
    (t : ℝ) (h : pinch_counts_invariant s) :
    pinch_counts_invariant (track_pinch_event s lm b t) := by
  obtain ⟨h1, h2, h3⟩ := h
  unfold pinch_counts_invariant track_pinch_event
  rcases hsp : s.current_pinch_start with _ | st <;>
    rw [hsp] at h1 <;>
    simp only [Option.isSome_none, Option.isSome_some, if_true, if_false,
      Bool.false_eq_true, cond_false, cond_true] at h1 <;>
    split_ifs with hlen hpin <;>
    simp_all <;>
    cases b <;>
    simp_all <;>
    omega

lemma run_pinch_events_invariant
    (updates : List (List Landmark × Bool × ℝ)) :
    pinch_counts_invariant (run_pinch_events updates) := by
  have base : pinch_counts_invariant initial_pinch_state := by
    unfold pinch_counts_invariant initial_pinch_state
    simp
  have main : ∀ (l : List (List Landmark × Bool × ℝ)) (s : PinchState),
      pinch_counts_invariant s →
        pinch_counts_invariant
          (l.foldl (fun s u => track_pinch_event s u.1 u.2.1 u.2.2) s) := by
    intro l
    induction l with
    | nil => exact fun s h => h
    | cons u us ih =>
      intro s h
      rw [List.foldl_cons]
      exact ih _ (pinch_step_invariant s u.1 u.2.1 u.2.2 h)
  exact main updates initial_pinch_state base

/-! # Claim theorems -/

/-- C1 (amended): The copy of the angle-at-vertex operation in
`rehab_gamification/hand_tracking/hand_tracker.py` (normalise then reflect)
always returns a value in `[0, 180]`; the copy in
`hand_tracking/hand_tracker.py` only normalises negatives and returns a
value in `[0, 360)` that can exceed 180; its caller in
`games/angle_master.py` applies the reflection itself, so the angle actually
used for target matching is again in `[0, 180]`. -/
theorem angle_vertex_range_amended :
    (∀ p1 p2 p3 : Landmark,
        0 ≤ calculate_angle p1 p2 p3 ∧ calculate_angle p1 p2 p3 ≤ 180) ∧
    (∀ q1 q2 q3 : ℤ × ℤ,
        0 ≤ calculate_angle_v2 q1 q2 q3 ∧ calculate_angle_v2 q1 q2 q3 < 360) ∧
    (∀ q1 q2 q3 : ℤ × ℤ,
        0 ≤ angle_master_current_angle q1 q2 q3 ∧
          angle_master_current_angle q1 q2 q3 ≤ 180) := by
  refine ⟨fun p1 p2 p3 => ?_, fun q1 q2 q3 => ?_, fun q1 q2 q3 => ?_⟩
  · obtain ⟨h1, h2⟩ := raw_angle_deg_bounds (p1.2.1 : ℝ) (p1.2.2 : ℝ)
      (p2.2.1 : ℝ) (p2.2.2 : ℝ) (p3.2.1 : ℝ) (p3.2.2 : ℝ)
    obtain ⟨h3, h4⟩ := normalize_angle_range h1 h2
    exact reflect_angle_range h3 h4
  · obtain ⟨h1, h2⟩ := raw_angle_deg_bounds (q1.1 : ℝ) (q1.2 : ℝ)
      (q2.1 : ℝ) (q2.2 : ℝ) (q3.1 : ℝ) (q3.2 : ℝ)
    exact normalize_angle_range h1 h2
  · obtain ⟨h1, h2⟩ := raw_angle_deg_bounds (q1.1 : ℝ) (q1.2 : ℝ)
      (q2.1 : ℝ) (q2.2 : ℝ) (q3.1 : ℝ) (q3.2 : ℝ)
    obtain ⟨h3, h4⟩ := normalize_angle_range h1 h2
    exact reflect_angle_range h3 h4

/-- C1 (counterexample): The copy of the angle operation in
`hand_tracking/hand_tracker.py` does not stay within `[0, 180]`: at
`p1 = (1, 0)`, `p2 = (0, 0)`, `p3 = (0, -1)` it returns 270. -/
theorem angle_v2_exceeds_180 :
    calculate_angle_v2 (1, 0) (0, 0) (0, -1) = 270 ∧
      ¬ calculate_angle_v2 (1, 0) (0, 0) (0, -1) ≤ 180 := by
  have hπ : Real.pi ≠ 0 := Real.pi_ne_zero
  have h1 : atan2 (-1 : ℝ) 0 = -(Real.pi / 2) := by
    unfold atan2
    have : ((0 : ℝ) : ℂ) + ((-1 : ℝ) : ℂ) * Complex.I = -Complex.I := by
      push_cast
      ring
    rw [this, Complex.arg_neg_I]
  have h2 : atan2 (0 : ℝ) 1 = 0 := by
    unfold atan2
    have : ((1 : ℝ) : ℂ) + ((0 : ℝ) : ℂ) * Complex.I = 1 := by
      push_cast
      ring
    rw [this, Complex.arg_one]
  have hraw : raw_angle_deg ((1 : ℤ) : ℝ) ((0 : ℤ) : ℝ) ((0 : ℤ) : ℝ)
      ((0 : ℤ) : ℝ) ((0 : ℤ) : ℝ) ((-1 : ℤ) : ℝ) = -90 := by
    unfold raw_angle_deg degrees
    norm_num [h1, h2]
    field_simp
    ring
  have hval : calculate_angle_v2 (1, 0) (0, 0) (0, -1) = 270 := by
    unfold calculate_angle_v2 normalize_angle
    rw [hraw]
    norm_num
  exact ⟨hval, by rw [hval]; norm_num⟩

/-- C2: For every landmark snapshot with fewer than 9 entries (so the
thumb tip, id 4, or the index tip, id 8, is absent), the pinch detector
reports not-pinching together with the origin placeholder `(0, 0)` — the
defined "no cursor" state — for any threshold; the embedded function is
total, so no error is raised. -/
theorem pinch_gesture_short_list (lm : List Landmark) (threshold : ℝ)
    (h : lm.length < 9) :
    get_pinch_gesture lm threshold = (false, (0, 0)) := by
  have h9 : ¬ 9 ≤ lm.length := by omega
  unfold get_pinch_gesture get_pinch_midpoint
  simp [h9]

/-- C2 (witness): Concrete instance at the empty snapshot. -/
theorem pinch_gesture_short_list_check :
    get_pinch_gesture [] 40 = (false, (0, 0)) :=
  pinch_gesture_short_list [] 40 (by simp)

/-- C3: Edge behaviour of the pinch accumulator: a frame with fewer
than 9 landmarks changes nothing; on the inactive→active transition of the
pinch boolean (pinching with no open pinch) exactly one attempt is recorded
and the pinch distance is appended, with no duration recorded; while the
pinch stays held the state is untouched (never a repeated attempt); on the
active→inactive transition exactly one duration `t - start` is appended and
no attempt is recorded; an inactive frame with no open pinch changes
nothing. -/
theorem track_pinch_event_edges (s : PinchState) (lm : List Landmark)
    (b : Bool) (t : ℝ) :
    (lm.length < 9 → track_pinch_event s lm b t = s) ∧
    (9 ≤ lm.length → (get_pinch_gesture lm 40).1 = true →
      s.current_pinch_start = none →
        (track_pinch_event s lm b t).total_pinch_attempts =
            s.total_pinch_attempts + 1 ∧
          (track_pinch_event s lm b t).pinch_distances =
            s.pinch_distances ++ [pinch_distance lm] ∧
          (track_pinch_event s lm b t).current_pinch_start = some t ∧
          (track_pinch_event s lm b t).pinch_durations = s.pinch_durations) ∧
    (9 ≤ lm.length → (get_pinch_gesture lm 40).1 = true →
      s.current_pinch_start ≠ none → track_pinch_event s lm b t = s) ∧
    (∀ st : ℝ, 9 ≤ lm.length → (get_pinch_gesture lm 40).1 = false →
      s.current_pinch_start = some st →
        (track_pinch_event s lm b t).pinch_durations =
            s.pinch_durations ++ [t - st] ∧
          (track_pinch_event s lm b t).total_pinch_attempts =
            s.total_pinch_attempts ∧
          (track_pinch_event s lm b t).pinch_distances = s.pinch_distances ∧
          (track_pinch_event s lm b t).current_pinch_start = none) ∧
    (9 ≤ lm.length → (get_pinch_gesture lm 40).1 = false →
      s.current_pinch_start = none → track_pinch_event s lm b t = s) := by
  refine ⟨fun h => ?_, fun h9 hp hn => ?_, fun h9 hp hs => ?_,
    fun st h9 hp hs => ?_, fun h9 hp hn => ?_⟩
  · simp [track_pinch_event, h]
  · have h' : ¬ lm.length < 9 := by omega
    simp [track_pinch_event, h', hp, hn]
  · have h' : ¬ lm.length < 9 := by omega
    obtain ⟨st, hst⟩ := Option.ne_none_iff_exists'.mp hs
    simp [track_pinch_event, h', hp, hst]
  · have h' : ¬ lm.length < 9 := by omega
    simp [track_pinch_event, h', hp, hs]
  · have h' : ¬ lm.length < 9 := by omega
    simp [track_pinch_event, h', hp, hn]

/-- C3 (witness): A concrete rising edge: the all-zero 9-landmark frame
is pinching (distance 0 < 40), so from the initial state one attempt and
one distance sample are recorded and no duration. -/
theorem track_pinch_event_edges_check :
    (track_pinch_event initial_pinch_state lm_zero true 5).total_pinch_attempts
        = 1 ∧
      (track_pinch_event initial_pinch_state lm_zero true 5).pinch_durations
        = [] := by
  have hd : pinch_distance lm_zero = 0 := by
    have h4 : lm_zero.getD 4 (0, 0, 0) = ((4 : ℤ), (0 : ℤ), (0 : ℤ)) := rfl
    have h8 : lm_zero.getD 8 (0, 0, 0) = ((8 : ℤ), (0 : ℤ), (0 : ℤ)) := rfl
    unfold pinch_distance calculate_distance
    rw [h4, h8]
    norm_num
  have hp : (get_pinch_gesture lm_zero 40).1 = true := by
    have h9 : (9 : ℕ) ≤ lm_zero.length := by decide
    simp [get_pinch_gesture, h9, hd]
  have h := (track_pinch_event_edges initial_pinch_state lm_zero true 5).2.1
    (by decide) hp rfl
  refine ⟨?_, ?_⟩
  · rw [h.1]
    rfl
  · rw [h.2.2.2]
    rfl

/-- C4: Calibration: with no distance samples the documented defaults
are returned (pinch threshold 40, never a failure); otherwise the threshold
is the sample at index `⌊0.7 * n⌋` of the ascending sort, scaled by 1.2 and
capped at 60; for the sample list `[10]*30 ++ [50]*70` the threshold is
exactly 60. -/
theorem calibration_threshold_spec :
    (∀ hp : List (ℤ × ℤ), calculate_calibration [] hp = (40, 1)) ∧
    (∀ (samples : List ℚ) (hp : List (ℤ × ℤ)), samples ≠ [] →
      (calculate_calibration samples hp).1 =
        min ((samples.insertionSort (· ≤ ·)).getD
            (⌊(samples.length : ℚ) * (7 / 10)⌋).toNat 40 * (12 / 10)) 60) ∧
    (calculate_calibration
        (List.replicate 30 (10 : ℚ) ++ List.replicate 70 50) []).1 = 60 := by
  refine ⟨fun hp => by simp [calculate_calibration], calibration_pt, ?_⟩
  have hne : List.replicate 30 (10 : ℚ) ++ List.replicate 70 50 ≠ [] := by
    simp
  rw [calibration_pt _ [] hne]
  have hsorted :
      List.Sorted (· ≤ ·) (List.replicate 30 (10 : ℚ) ++ List.replicate 70 50) := by
    rw [List.Sorted, List.pairwise_append]
    refine ⟨List.pairwise_replicate.mpr (Or.inr le_rfl),
      List.pairwise_replicate.mpr (Or.inr le_rfl),
      fun a ha b hb => ?_⟩
    rw [List.eq_of_mem_replicate ha, List.eq_of_mem_replicate hb]
    norm_num
  rw [hsorted.insertionSort_eq]
  have hlen :
      (List.replicate 30 (10 : ℚ) ++ List.replicate 70 50).length = 100 := by
    simp
  rw [hlen]
  have hfloor : ⌊((100 : ℕ) : ℚ) * (7 / 10)⌋ = 70 := by
    norm_num
  rw [hfloor]
  have hgetD :
      (List.replicate 30 (10 : ℚ) ++ List.replicate 70 50).getD
          ((70 : ℤ)).toNat 40 = 50 := by
    rw [show ((70 : ℤ)).toNat = 70 from rfl,
      List.getD_append_right _ _ _ _ (by simp)]
    simp [List.getD_eq_getElem?_getD]
  rw [hgetD]
  norm_num

/-- C4 (witness): Concrete non-empty sample list `[5]`: the sorted list
is `[5]`, the 70th-percentile index is 0, and `min (5 * 1.2) 60 = 6`. -/
theorem calibration_threshold_check :
    (calculate_calibration [(5 : ℚ)] []).1 = 6 := by
  have h := calibration_threshold_spec.2.1 [(5 : ℚ)] [] (by simp)
  rw [h]
  have hsorted : List.Sorted (· ≤ ·) [(5 : ℚ)] := List.sorted_singleton 5
  rw [hsorted.insertionSort_eq]
  have hfloor : ⌊(([(5 : ℚ)].length : ℕ) : ℚ) * (7 / 10)⌋ = 0 := by
    norm_num
  rw [hfloor]
  norm_num [List.getD]

/-- C7: The session pinch success rate (the `pinch_success_rate`
quantity of `get_enhanced_session_data`): equal to
`successes / attempts * 100`, 0 when there is no attempt; a state with 10
attempts and 7 successes yields exactly 70, also after the two-decimal
rounding applied in the reported `pinch_analytics` block. -/
theorem pinch_success_rate_spec (s : PinchState) :
    (s.total_pinch_attempts = 0 → pinch_success_rate s = 0) ∧
    (0 < s.total_pinch_attempts →
      pinch_success_rate s =
        (s.successful_pinches : ℝ) / (s.total_pinch_attempts : ℝ) * 100) ∧
    (s.total_pinch_attempts = 10 → s.successful_pinches = 7 →
      pinch_success_rate s = 70 ∧
        (get_pinch_analytics s).pinch_success_rate = 70) := by
  refine ⟨fun h => ?_, fun h => ?_, fun h10 h7 => ?_⟩
  · simp [pinch_success_rate, h]
  · simp [pinch_success_rate, h]
  · have hrate : pinch_success_rate s = 70 := by
      simp only [pinch_success_rate, h10, h7]
      norm_num
    refine ⟨hrate, ?_⟩
    have : (get_pinch_analytics s).pinch_success_rate =
        round_dp 2 (pinch_success_rate s) := rfl
    rw [this, hrate]
    have h70 : round_dp 2 (70 : ℝ) = ((7000 : ℤ) : ℝ) / 10 ^ 2 :=
      round_dp_eq_of_floor (by norm_num) (by norm_num)
    rw [h70]
    norm_num

/-- C7 (witness): Concrete state with 10 attempts and 7 successes. -/
theorem pinch_success_rate_check :
    pinch_success_rate
        { initial_pinch_state with
            total_pinch_attempts := 10, successful_pinches := 7 } = 70 :=
  ((pinch_success_rate_spec
      { initial_pinch_state with
          total_pinch_attempts := 10, successful_pinches := 7 }).2.2
    rfl rfl).1

/-- C5 (amended): The smoothness score equals
`max(0, 100 - 100 * mean |Δspeed| / mean speed)` **rounded to two decimal
places (round-half-to-even)**; it is 0 for fewer than 3 speed samples or a
zero mean speed, and equals 100 for every history of at least 3 identical
**positive** speed samples. -/
theorem smoothness_score_amended :
    (∀ speeds : List ℝ, speeds.length < 3 →
      calculate_movement_smoothness speeds = 0) ∧
    (∀ speeds : List ℝ, 3 ≤ speeds.length →
      speeds.sum / speeds.length = 0 →
        calculate_movement_smoothness speeds = 0) ∧
    (∀ speeds : List ℝ, 3 ≤ speeds.length →
      0 < speeds.sum / speeds.length →
        calculate_movement_smoothness speeds =
          round_dp 2 (max 0 (100 -
            (speed_changes speeds).sum / (speed_changes speeds).length /
              (speeds.sum / speeds.length) * 100))) ∧
    (∀ (c : ℝ) (n : ℕ), 3 ≤ n → 0 < c →
      calculate_movement_smoothness (List.replicate n c) = 100) := by
  have hch_ne : ∀ speeds : List ℝ, 3 ≤ speeds.length →
      speed_changes speeds ≠ [] := by
    intro speeds h3
    apply List.length_pos.mp
    rw [speed_changes_length]
    omega
  refine ⟨fun speeds h => by simp [calculate_movement_smoothness, h],
    fun speeds h3 hmean => ?_, fun speeds h3 hmean => ?_, fun c n h3 hc => ?_⟩
  · have h3' : ¬ speeds.length < 3 := by omega
    have hpos : ¬ 0 < speeds.sum / speeds.length := by
      rw [hmean]
      exact lt_irrefl 0
    unfold calculate_movement_smoothness
    rw [if_neg h3', if_neg (hch_ne speeds h3), if_neg hpos, round_dp_zero]
  · have h3' : ¬ speeds.length < 3 := by omega
    unfold calculate_movement_smoothness
    rw [if_neg h3', if_neg (hch_ne speeds h3), if_pos hmean]
  · have hlen : (List.replicate n c).length = n := List.length_replicate n c
    have h3' : ¬ (List.replicate n c).length < 3 := by omega
    have h3'' : 3 ≤ (List.replicate n c).length := by omega
    have hn : (n : ℝ) ≠ 0 := by
      have : 0 < n := by omega
      positivity
    have hmean : (List.replicate n c).sum / (List.replicate n c).length = c := by
      rw [List.sum_replicate, hlen, nsmul_eq_mul]
      field_simp
    have hpos : 0 < (List.replicate n c).sum / (List.replicate n c).length := by
      rw [hmean]
      exact hc
    unfold calculate_movement_smoothness
    rw [if_neg h3', if_neg (hch_ne _ h3''), if_pos hpos,
      speed_changes_replicate_sum, hmean]
    have hexpr : max (0 : ℝ)
        (100 - 0 / ((speed_changes (List.replicate n c)).length : ℝ) / c * 100)
          = 100 := by
      rw [zero_div, zero_div, zero_mul, sub_zero]
      exact max_eq_right (by norm_num)
    rw [hexpr]
    have h100 := @round_dp_eq_of_floor 2 100 10000 (by norm_num) (by norm_num)
    rw [h100]
    norm_num

/-- C5 (counterexample): For the speed history `[1, 2, 4]` the code
returns `35.71` (two-decimal rounding of `250/7`), which differs from the
claimed exact value `max(0, 100 - 100 * mean |Δspeed| / mean speed) =
250/7 = 35.714285…`. -/
theorem smoothness_score_rounding_gap :
    calculate_movement_smoothness [1, 2, 4] ≠
      max 0 (100 -
        ((|(2 : ℝ) - 1| + |(4 : ℝ) - 2|) / 2) / (((1 : ℝ) + 2 + 4) / 3) * 100)
      := by
  have hch : speed_changes [(1 : ℝ), 2, 4] = [1, 2] := by
    unfold speed_changes
    norm_num
  have hlhs : calculate_movement_smoothness [1, 2, 4] = 3571 / 100 := by
    unfold calculate_movement_smoothness
    rw [if_neg (by norm_num), if_neg (by rw [hch]; simp), hch]
    have hmean : ([(1 : ℝ), 2, 4].sum / ([(1 : ℝ), 2, 4].length : ℝ)) = 7 / 3
        := by
      norm_num
    rw [hmean, if_pos (by norm_num)]
    have hexpr : max (0 : ℝ)
        (100 - ([(1 : ℝ), 2].sum / ([(1 : ℝ), 2].length : ℝ)) / (7 / 3) * 100)
          = 250 / 7 := by
      norm_num
    rw [hexpr]
    have h := @round_dp_eq_of_floor 2 (250 / 7) 3571 (by norm_num) (by norm_num)
    rw [h]
    norm_num
  rw [hlhs]
  norm_num

/-- C5 (witness): Ten identical positive speed samples score exactly
100; an empty history scores 0. -/
theorem smoothness_score_amended_check :
    calculate_movement_smoothness (List.replicate 10 (5 : ℝ)) = 100 ∧
      calculate_movement_smoothness [] = 0 :=
  ⟨smoothness_score_amended.2.2.2 5 10 (by norm_num) (by norm_num),
   smoothness_score_amended.1 [] (by simp)⟩

/-- C8 (amended): The pinch consistency score equals
`max(0, 100 - 100 * stddev(distances) / mean(distances))` **rounded to two
decimal places (round-half-to-even)** over the pinch-distance history, and
is 0 whenever the mean distance is 0 or fewer than 2 samples were
recorded. -/
theorem pinch_consistency_amended :
    (∀ distances : List ℝ, distances.length < 2 →
      calculate_pinch_consistency distances = 0) ∧
    (∀ distances : List ℝ, 2 ≤ distances.length →
      distances.sum / distances.length = 0 →
        calculate_pinch_consistency distances = 0) ∧
    (∀ distances : List ℝ, 2 ≤ distances.length →
      distances.sum / distances.length ≠ 0 →
        calculate_pinch_consistency distances =
          round_dp 2 (max 0 (100 -
            Real.sqrt ((distances.map fun d =>
                (d - distances.sum / distances.length) ^ 2).sum /
              distances.length) /
              (distances.sum / distances.length) * 100))) := by
  refine ⟨fun distances h => by simp [calculate_pinch_consistency, h],
    fun distances h2 hmean => ?_, fun distances h2 hmean => ?_⟩
  · have h2' : ¬ distances.length < 2 := by omega
    unfold calculate_pinch_consistency
    rw [if_neg h2', if_pos hmean]
  · have h2' : ¬ distances.length < 2 := by omega
    unfold calculate_pinch_consistency
    rw [if_neg h2', if_neg hmean]

/-- C8 (counterexample): For the pinch-distance history `[1, 2]` the
code returns `66.67` (two-decimal rounding of `200/3`), which differs from
the claimed exact value
`max(0, 100 - 100 * stddev / mean) = 200/3 = 66.666…`. -/
theorem pinch_consistency_rounding_gap :
    calculate_pinch_consistency [1, 2] ≠
      max 0 (100 -
        Real.sqrt ((((1 : ℝ) - 3 / 2) ^ 2 + ((2 : ℝ) - 3 / 2) ^ 2) / 2) /
          (((1 : ℝ) + 2) / 2) * 100) := by
  have hsq : Real.sqrt (1 / 4) = 1 / 2 := by
    rw [show (1 / 4 : ℝ) = (1 / 2) ^ 2 by norm_num]
    exact Real.sqrt_sq (by norm_num)
  have hmean : ([(1 : ℝ), 2].sum / ([(1 : ℝ), 2].length : ℝ)) = 3 / 2 := by
    norm_num
  have hlhs : calculate_pinch_consistency [1, 2] = 6667 / 100 := by
    unfold calculate_pinch_consistency
    rw [if_neg (by norm_num), if_neg (by norm_num)]
    have hvar : (([(1 : ℝ), 2].map fun d =>
        (d - [(1 : ℝ), 2].sum / ([(1 : ℝ), 2].length : ℝ)) ^ 2).sum /
          ([(1 : ℝ), 2].length : ℝ)) = 1 / 4 := by
      norm_num
    rw [hvar, hsq, hmean]
    have hexpr : max (0 : ℝ) (100 - 1 / 2 / (3 / 2) * 100) = 200 / 3 := by
      norm_num
    rw [hexpr]
    have h := @round_dp_eq_of_ceil 2 (200 / 3) 6666 (by norm_num) (by norm_num)
    rw [h]
    norm_num
  rw [hlhs]
  have hrhs : max (0 : ℝ) (100 -
      Real.sqrt ((((1 : ℝ) - 3 / 2) ^ 2 + ((2 : ℝ) - 3 / 2) ^ 2) / 2) /
        (((1 : ℝ) + 2) / 2) * 100) = 200 / 3 := by
    rw [show ((((1 : ℝ) - 3 / 2) ^ 2 + ((2 : ℝ) - 3 / 2) ^ 2) / 2) = 1 / 4 by
      norm_num, hsq]
    norm_num
  rw [hrhs]
  norm_num

/-- C8 (witness): For the history `[1, 3]`: mean 2, stddev 1, so the
score is `round2(max(0, 100 - 100 * 1/2)) = 50`. -/
theorem pinch_consistency_amended_check :
    calculate_pinch_consistency [(1 : ℝ), 3] = 50 := by
  have h := pinch_consistency_amended.2.2 [(1 : ℝ), 3] (by norm_num)
    (by norm_num)
  rw [h]
  have hmean : ([(1 : ℝ), 3].sum / ([(1 : ℝ), 3].length : ℝ)) = 2 := by
    norm_num
  have hvar : (([(1 : ℝ), 3].map fun d =>
      (d - [(1 : ℝ), 3].sum / ([(1 : ℝ), 3].length : ℝ)) ^ 2).sum /
        ([(1 : ℝ), 3].length : ℝ)) = 1 := by
    norm_num
  rw [hvar, Real.sqrt_one, hmean]
  have hexpr : max (0 : ℝ) (100 - 1 / 2 * 100) = 50 := by
    norm_num
  rw [hexpr]
  have h50 := @round_dp_eq_of_floor 2 50 5000 (by norm_num) (by norm_num)
  rw [h50]
  norm_num

/-- C6: The motion tracker appends a speed sample
(`displacement / elapsed`) and a distance sample and increments the
movement count exactly when a hand is detected (more than 8 landmarks), a
previous position exists, the elapsed time is strictly positive and the
displacement exceeds the 1 px noise floor; a frame failing any of these
conditions adds no speed or distance sample and leaves the count
unchanged. -/
theorem motion_speed_sample_conditions (s : MotionState) (lm : List Landmark)
    (t : ℝ) :
    (∀ p : ℤ × ℤ, 8 < lm.length → s.last_hand_position = some p →
      0 < t - s.last_frame_time → 1 < displacement p (position8 lm) →
        (track_hand_data s lm t).movement_speeds =
            s.movement_speeds ++
              [displacement p (position8 lm) / (t - s.last_frame_time)] ∧
          (track_hand_data s lm t).movement_distances =
            s.movement_distances ++ [displacement p (position8 lm)] ∧
          (track_hand_data s lm t).total_movements = s.total_movements + 1) ∧
    (¬ (8 < lm.length ∧ ∃ p : ℤ × ℤ, s.last_hand_position = some p ∧
          0 < t - s.last_frame_time ∧ 1 < displacement p (position8 lm)) →
      (track_hand_data s lm t).movement_speeds = s.movement_speeds ∧
        (track_hand_data s lm t).movement_distances = s.movement_distances ∧
        (track_hand_data s lm t).total_movements = s.total_movements) := by
  constructor
  · intro p h8 hp ht hd
    unfold track_hand_data
    rw [if_pos h8, hp]
    simp only [if_pos (And.intro ht hd)]
    refine ⟨?_, ?_, ?_⟩ <;> trivial
  · intro h
    by_cases h8 : 8 < lm.length
    · rcases hsp : s.last_hand_position with _ | p
      · unfold track_hand_data
        rw [if_pos h8, hsp]
        refine ⟨?_, ?_, ?_⟩ <;> trivial
      · have hcond : ¬ (0 < t - s.last_frame_time ∧
            1 < displacement p (position8 lm)) := by
          intro hc
          exact h ⟨h8, p, hsp, hc.1, hc.2⟩
        unfold track_hand_data
        rw [if_pos h8, hsp]
        simp only [if_neg hcond]
        refine ⟨?_, ?_, ?_⟩ <;> trivial
    · unfold track_hand_data
      rw [if_neg h8]
      split_ifs <;> refine ⟨?_, ?_, ?_⟩ <;> trivial

/-- C6 (witness): From a state whose last position is the origin, the
frame `lm_idx34` at time 1 (displacement 5 px, elapsed 1 s) records speed
5 and movement count 1. -/
theorem motion_speed_sample_conditions_check :
    (track_hand_data motion_state_prev lm_idx34 1).total_movements = 1 ∧
      (track_hand_data motion_state_prev lm_idx34 1).movement_speeds = [5]
      := by
  have hdisp : displacement (0, 0) (position8 lm_idx34) = 5 := by
    have hpos : position8 lm_idx34 = (3, 4) := rfl
    rw [hpos]
    unfold displacement
    norm_num
    rw [show (25 : ℝ) = 5 ^ 2 by norm_num]
    exact Real.sqrt_sq (by norm_num)
  have hlf : motion_state_prev.last_frame_time = 0 := rfl
  have h := (motion_speed_sample_conditions motion_state_prev lm_idx34 1).1
      (0, 0) (by decide) rfl (by rw [hlf]; norm_num)
      (by rw [hdisp]; norm_num)
  refine ⟨?_, ?_⟩
  · rw [h.2.2]
    rfl
  · rw [h.1, hdisp, hlf,
      show motion_state_prev.movement_speeds = ([] : List ℝ) from rfl]
    norm_num

/-- C9: The tracking-loss counter is incremented exactly on the
falling edge from a hand-detected frame to a not-detected frame; it is
unchanged on repeated not-detected frames (the detected flag having been
cleared) and on detected frames (which set the flag). -/
theorem tracking_loss_falling_edge (s : MotionState) (lm : List Landmark)
    (t : ℝ) :
    (¬ 8 < lm.length → s.was_hand_detected_last_frame = true →
      (track_hand_data s lm t).tracking_lost_count =
          s.tracking_lost_count + 1 ∧
        (track_hand_data s lm t).was_hand_detected_last_frame = false) ∧
    (¬ 8 < lm.length → s.was_hand_detected_last_frame = false →
      (track_hand_data s lm t).tracking_lost_count = s.tracking_lost_count ∧
        (track_hand_data s lm t).was_hand_detected_last_frame = false) ∧
    (8 < lm.length →
      (track_hand_data s lm t).tracking_lost_count = s.tracking_lost_count ∧
        (track_hand_data s lm t).was_hand_detected_last_frame = true) := by
  refine ⟨fun h8 hw => ?_, fun h8 hw => ?_, fun h8 => ?_⟩
  · unfold track_hand_data
    rw [if_neg h8]
    simp only [hw, if_true]
    refine ⟨?_, ?_⟩ <;> trivial
  · unfold track_hand_data
    rw [if_neg h8]
    simp only [hw, Bool.false_eq_true, if_false]
    refine ⟨?_, ?_⟩ <;> trivial
  · rcases hsp : s.last_hand_position with _ | p
    · unfold track_hand_data
      rw [if_pos h8, hsp]
      refine ⟨?_, ?_⟩ <;> trivial
    · by_cases hc : 0 < t - s.last_frame_time ∧ 1 < displacement p (position8 lm)
      · unfold track_hand_data
        rw [if_pos h8, hsp]
        simp only [if_pos hc]
        refine ⟨?_, ?_⟩ <;> trivial
      · unfold track_hand_data
        rw [if_pos h8, hsp]
        simp only [if_neg hc]
        refine ⟨?_, ?_⟩ <;> trivial

/-- C9 (witness): A not-detected frame right after a detected one
increments the loss counter from 0 to 1 and clears the flag. -/
theorem tracking_loss_falling_edge_check :
    (track_hand_data
          { initial_motion_state with was_hand_detected_last_frame := true }
          [] 1).tracking_lost_count = 1 ∧
      (track_hand_data
          { initial_motion_state with was_hand_detected_last_frame := true }
          [] 1).was_hand_detected_last_frame = false := by
  have h := (tracking_loss_falling_edge
      { initial_motion_state with was_hand_detected_last_frame := true }
      [] 1).1 (by decide) rfl
  refine ⟨?_, h.2⟩
  rw [h.1]
  rfl

/-- C10: After every sequence of `track_pinch_event` updates from the
initial state: every attempt has contributed exactly one distance sample
and one success-or-failure count; the duration history is at most as long
as the attempt count, and strictly shorter exactly when a pinch is still
open (`current_pinch_start` set) — reading the session data performs no
end-of-session flush, as `get_pinch_analytics` is a pure function of the
state reporting the attempt count unchanged. -/
theorem open_pinch_duration_invariant
    (updates : List (List Landmark × Bool × ℝ)) :
    (run_pinch_events updates).pinch_durations.length +
        (if (run_pinch_events updates).current_pinch_start.isSome then 1
         else 0) =
      (run_pinch_events updates).total_pinch_attempts ∧
    (run_pinch_events updates).successful_pinches +
        (run_pinch_events updates).failed_pinches =
      (run_pinch_events updates).total_pinch_attempts ∧
    (run_pinch_events updates).pinch_distances.length =
      (run_pinch_events updates).total_pinch_attempts ∧
    (run_pinch_events updates).pinch_durations.length ≤
      (run_pinch_events updates).total_pinch_attempts ∧
    ((run_pinch_events updates).pinch_durations.length <
        (run_pinch_events updates).total_pinch_attempts ↔
      (run_pinch_events updates).current_pinch_start.isSome = true) ∧
    (get_pinch_analytics (run_pinch_events updates)).total_pinch_attempts =
      (run_pinch_events updates).total_pinch_attempts := by
  obtain ⟨h1, h2, h3⟩ := run_pinch_events_invariant updates
  refine ⟨h1, h2, h3, ?_, ?_, rfl⟩
  · cases h : (run_pinch_events updates).current_pinch_start.isSome <;>
      rw [h] at h1 <;> simp at h1 <;> omega
  · cases h : (run_pinch_events updates).current_pinch_start.isSome <;>
      rw [h] at h1 <;> simp at h1 <;>
      constructor <;> intro hx <;> first | omega | simp_all

end RehabGamified
